import Mathlib

/-!
# Authentication flow of `backend/controller/userController.js`

A shallow embedding of the `register`, `login` and `logout` handlers and of the
Mongoose schema of `backend/models/userModel.js`.

* Request fields are `Option String`: `none` is a field that is absent, and a
  field that is present is a string, as a form submission delivers it.
* A handler is a function from the environment, the state of the world and the
  request to an `Outcome`: the response, the new state and the trace of calls
  made to the collaborators (`User.create`, `User.findOne`, `verifyPassword`,
  `blackListToken`).
* Third-party libraries whose code is not part of the repository
  (`validator.isEmail`, bcrypt, the id generators), the Unicode case conversion
  of the JavaScript engine and the repository's `utils/blackListToken.js` are
  fields of `Env`.
* `jwt.sign` throws when the signing secret is unset or empty; the `autoCatchFn`
  wrapper hands the error to `handleError`, which answers 500.
* Mongoose is modelled as far as the schema uses it: setters run on documents
  and on query filters, each path reports its first failing validator, the
  collection is a list in insertion order. Timestamps are left out.
-/

namespace AuthCore

/-! ## JavaScript string primitives -/

/-- JavaScript `WhiteSpace` and `LineTerminator` code points. This is the class
`\s` of a regular expression and the set `String.prototype.trim` strips. -/
def isJsWhitespace (c : Char) : Bool :=
  c.toNat == 0x09 || c.toNat == 0x0A || c.toNat == 0x0B || c.toNat == 0x0C ||
  c.toNat == 0x0D || c.toNat == 0x20 || c.toNat == 0xA0 || c.toNat == 0x1680 ||
  (0x2000 ≤ c.toNat && c.toNat ≤ 0x200A) || c.toNat == 0x2028 || c.toNat == 0x2029 ||
  c.toNat == 0x202F || c.toNat == 0x205F || c.toNat == 0x3000 || c.toNat == 0xFEFF

/-- The range `A-Z`. -/
def isUpperAZ (c : Char) : Bool := 65 ≤ c.toNat && c.toNat ≤ 90

/-- The range `a-z`. -/
def isLowerAZ (c : Char) : Bool := 97 ≤ c.toNat && c.toNat ≤ 122

/-- The range `0-9`. -/
def isDigit09 (c : Char) : Bool := 48 ≤ c.toNat && c.toNat ≤ 57

/-- Lower-casing of one ASCII character: `A-Z` go to `a-z`, the others stay. -/
def asciiLowerChar (c : Char) : Char :=
  if isUpperAZ c then Char.ofNat (c.toNat + 32) else c

/-- Lower-casing of a string of ASCII characters. -/
def asciiLowerCase (s : String) : String := ⟨s.data.map asciiLowerChar⟩

/-- Whether every character of a string is an ASCII character. -/
def isAscii (s : String) : Bool := s.data.all fun c => decide (c.toNat < 128)

/-- `String.prototype.trim`: strips white space from both ends. -/
def trim (s : String) : String :=
  ⟨(s.data.dropWhile isJsWhitespace).rdropWhile isJsWhitespace⟩

/-- `String.prototype.length`: the number of UTF-16 code units. -/
def jsLength (s : String) : Nat :=
  (s.data.map fun c => if c.toNat < 0x10000 then 1 else 2).sum

/-- JavaScript falsiness of a request field: `!x` holds for a field that is
absent and for the empty string. -/
def falsy (v : Option String) : Bool :=
  match v with
  | none => true
  | some s => s == ""

/-- `Array.prototype.join(', ')` on strings. -/
def joinComma : List String → String
  | [] => ""
  | [m] => m
  | m :: ms => m ++ ", " ++ joinComma ms

/-! ## `validator.isStrongPassword` -/

/-- The symbols `validator.isStrongPassword` counts. -/
def symbolChars : List Char :=
  "-#!$@£%^&*()_+|~=\x60\x7b\x7d[]:\x22;\x27<>?,./\x5c ".data

/-- The character classes of a password analysis. -/
inductive CharClass where
  | uppercase
  | lowercase
  | number
  | symbol
  | other
  deriving DecidableEq, Repr

/-- The class a character is counted in: the first of upper case, lower case,
number and symbol that matches. -/
def classify (c : Char) : CharClass :=
  if isUpperAZ c then .uppercase
  else if isLowerAZ c then .lowercase
  else if isDigit09 c then .number
  else if symbolChars.contains c then .symbol
  else .other

/-- The result of analysing a password. -/
structure Analysis where
  length : Nat
  uppercaseCount : Nat
  lowercaseCount : Nat
  numberCount : Nat
  symbolCount : Nat
  deriving DecidableEq, Repr

/-- Counts the characters of each class in a password. -/
def analyzePassword (password : String) : Analysis :=
  { length := jsLength password
    uppercaseCount := password.data.countP fun c => classify c == .uppercase
    lowercaseCount := password.data.countP fun c => classify c == .lowercase
    numberCount := password.data.countP fun c => classify c == .number
    symbolCount := password.data.countP fun c => classify c == .symbol }

/-- The options `register` passes to `validator.isStrongPassword`. -/
structure StrengthOptions where
  minLength : Nat
  minLowercase : Nat
  minUppercase : Nat
  minNumbers : Nat
  minSymbols : Nat

/-- Modelled from the spec: `validator.isStrongPassword` is a third-party
function; the policy is "minimum length 8, at least one uppercase, one
lowercase, one digit, one symbol", each minimum taken from the options. -/
def isStrongPassword (password : String) (o : StrengthOptions) : Bool :=
  let a := analyzePassword password
  decide (a.length ≥ o.minLength) && decide (a.lowercaseCount ≥ o.minLowercase) &&
  decide (a.uppercaseCount ≥ o.minUppercase) && decide (a.numberCount ≥ o.minNumbers) &&
  decide (a.symbolCount ≥ o.minSymbols)

/-! ## Data model -/

/-- A document of the `User` collection. -/
structure UserDoc where
  _id : String
  id : String
  username : String
  email : String
  password : String
  deriving DecidableEq, Repr

/-- The claims `login` signs. -/
structure Payload where
  _id : Option String
  username : String
  email : Option String
  role : String
  deriving DecidableEq, Repr

/-- A signed token, `jwt.sign(payload, secret, {expiresIn})`, kept as the
record of what was signed. -/
structure Token where
  payload : Payload
  secret : String
  expiresIn : String
  deriving DecidableEq, Repr

/-- The revocation registry: token fingerprints with their expiry. -/
abbrev Registry := List (String × Nat)

/-- Configuration (`process.env`, where a variable may be unset) and the
collaborators whose code is outside the repository's sources.
`unicodeLowerCase` is the engine's `String.prototype.toLowerCase` on strings
that have a character outside ASCII. -/
structure Env where
  ADMIN_PASSWORD : Option String
  JWT_SECRET : Option String
  NODE_ENV : Option String
  unicodeLowerCase : String → String
  isEmail : String → Bool
  bcryptHash : String → String
  bcryptCompare : String → String → Bool
  objectId : Nat → String
  createId : Nat → String
  blackListToken : String → Registry → Registry

/-- `String.prototype.toLowerCase`: on a string of ASCII characters `A-Z` go to
`a-z`; on any other string it is the Unicode case conversion of the engine. -/
def toLowerCase (env : Env) (s : String) : String :=
  if isAscii s then asciiLowerCase s else env.unicodeLowerCase s

/-- The state the handlers act on: the `User` collection and the registry. -/
structure World where
  users : List UserDoc
  registry : Registry
  deriving DecidableEq, Repr

/-- The calls a handler makes to its collaborators. -/
inductive Call where
  | userCreate (username email password : String)
  | userFindOne (username : String)
  | verifyPassword (docId password : String)
  | blackListToken (token : String)
  deriving DecidableEq, Repr

/-- What a response sends back: `res.render(view, {error})`,
`res.render(view, {title, error})` or `res.redirect(target)`. -/
inductive Body where
  | render (view : String) (error : Option String)
  | renderPage (view title error : String)
  | redirect (target : String)
  deriving DecidableEq, Repr

/-- The options of `res.cookie`. -/
structure CookieOptions where
  httpOnly : Bool
  secure : Bool
  sameSite : String
  deriving DecidableEq, Repr

/-- A cookie set by `res.cookie`. -/
structure Cookie where
  name : String
  value : Token
  options : CookieOptions
  deriving DecidableEq, Repr

/-- An Express response: status, cookies set, cookies cleared and the body. -/
structure Response where
  status : Nat
  cookies : List Cookie
  cleared : List String
  body : Body
  deriving DecidableEq, Repr

/-- The result of running a handler. -/
structure Outcome where
  res : Response
  world : World
  calls : List Call
  deriving DecidableEq, Repr

/-- The response `res.status(code).render(view, {error})`. -/
def renderError (code : Nat) (view error : String) : Response :=
  { status := code, cookies := [], cleared := [], body := .render view (some error) }

/-- The response `res.redirect(target)`, status 302. -/
def redirectTo (target : String) : Response :=
  { status := 302, cookies := [], cleared := [], body := .redirect target }

/-- The middleware `handleError` of `backend/middleware/handleError.js`, on a
response whose headers are not sent yet:
`res.status(500).render('error', {title, error})`. -/
def handleError : Response :=
  { status := 500
    cookies := []
    cleared := []
    body := .renderPage "error" "500 Error" "Server is currently down. Try again later" }

/-- Modelled from the spec: `lib/autoCatchFn.js` is not among the sources.
Errors "never propagate as unhandled faults" and end in "a generic failure
response": what a handler throws is passed on to the error middleware. This is
the outcome of a handler that threw in world `w` after the calls `calls`. -/
def autoCatchFn (w : World) (calls : List Call) : Outcome :=
  { res := handleError, world := w, calls := calls }

/-! ## The schema of `backend/models/userModel.js` -/

/-- The setters of `username`: `lowercase: true` and `trim: true`. -/
def setUsername (env : Env) (v : String) : String := trim (toLowerCase env v)

/-- The setter of `email`: `lowercase: true`. -/
def setEmail (env : Env) (v : String) : String := toLowerCase env v

/-- First validator of `username`: `!/^admin$/.test(str.toLowerCase())`. -/
def usernameNotReserved (env : Env) (str : String) : Bool :=
  !(toLowerCase env str == "admin")

/-- Second validator of `username`: `/^[a-zA-Z0-9\s_]+$/.test(str)`. -/
def usernameCharsAllowed (str : String) : Bool :=
  !str.data.isEmpty &&
  str.data.all fun c => isLowerAZ c || isUpperAZ c || isDigit09 c || isJsWhitespace c || c == '_'

/-- Validation of the `username` path on the value the setters produced:
`required`, then the two validators in order; the first failure is the error
of the path. -/
def validateUsername (env : Env) (v : String) : Option String :=
  if v == "" then some "Path `username` is required."
  else if !usernameNotReserved env v then some "Name admin is reserved"
  else if !usernameCharsAllowed v then some "Name should contain only letters,numbers, space or _"
  else none

/-- Validation of the `email` path: `required`, `validator.isEmail`, then the
validator added by `mongoose-unique-validator` for `unique: true`, whose message
`{PATH} already exits` has the path filled in. -/
def validateEmail (env : Env) (users : List UserDoc) (v : String) : Option String :=
  if v == "" then some "Path `email` is required."
  else if !env.isEmail v then some "Enter a valid Email"
  else if users.any (fun d => d.email == v) then some "email already exits"
  else none

/-- Validation of the `password` path: `required`. -/
def validatePassword (v : String) : Option String :=
  if v == "" then some "Path `password` is required."
  else none

/-- How `User.create` rejects: a `ValidationError` with the messages of the
failing paths, a duplicate key on the unique index (code 11000), or any other
error. -/
inductive CreateError where
  | validation (messages : List String)
  | duplicateKey
  | other
  deriving DecidableEq, Repr

/-- The messages of a validation, one per failing path, in schema order. -/
def validationErrors (env : Env) (users : List UserDoc) (username email password : String) :
    List String :=
  (validateUsername env username).toList ++ (validateEmail env users email).toList ++
    (validatePassword password).toList

/-- The document `User.create` inserts: generated `_id` and `id`, the values the
setters produced, and the hash of the password (`bcrypt: true`). -/
def User.newDoc (env : Env) (users : List UserDoc) (username email password : String) : UserDoc :=
  { _id := env.objectId users.length
    id := env.createId users.length
    username := setUsername env username
    email := setEmail env email
    password := env.bcryptHash password }

/-- `User.create({username, email, password})`: applies the setters, validates,
hashes the password (`bcrypt: true`) and inserts; the unique index on `email`
rejects a duplicate with code 11000. Returns the collection after the insert. -/
def User.create (env : Env) (users : List UserDoc) (username email password : String) :
    Except CreateError (List UserDoc) :=
  let errors :=
    validationErrors env users (setUsername env username) (setEmail env email) password
  if errors ≠ [] then .error (.validation errors)
  else if users.any (fun d => d.email == setEmail env email) then .error .duplicateKey
  else .ok (users ++ [User.newDoc env users username email password])

/-- `User.findOne({username})`: the filter is cast through the setters of the
path, the first matching document is returned. -/
def User.findOne (env : Env) (users : List UserDoc) (username : String) : Option UserDoc :=
  users.find? fun d => d.username == setUsername env username

/-- `user.verifyPassword(password)`, added by `mongoose-bcrypt`. -/
def UserDoc.verifyPassword (env : Env) (user : UserDoc) (password : String) : Bool :=
  env.bcryptCompare password user.password

/-! ## The handlers of `backend/controller/userController.js` -/

/-- The body of a registration request, `req.body || {}`. -/
structure RegisterBody where
  username : Option String
  email : Option String
  password : Option String
  deriving DecidableEq, Repr

/-- The body of a login request, `req.body || {}`. -/
structure LoginBody where
  username : Option String
  password : Option String
  deriving DecidableEq, Repr

/-- The options `register` passes to the strength check. -/
def registerStrength : StrengthOptions :=
  { minLength := 8, minLowercase := 1, minUppercase := 1, minNumbers := 1, minSymbols := 1 }

/-- `jwt.sign(payload, process.env.JWT_SECRET, { expiresIn: '2h' })`: the
library throws `secretOrPrivateKey must have a value` when the secret is unset
or empty, and signs otherwise. -/
def jwtSign (env : Env) (payload : Payload) : Except String Token :=
  match env.JWT_SECRET with
  | none => .error "secretOrPrivateKey must have a value"
  | some secret =>
    if secret == "" then .error "secretOrPrivateKey must have a value"
    else .ok { payload := payload, secret := secret, expiresIn := "2h" }

/-- The claims of an administrator token. -/
def adminPayload : Payload :=
  { _id := none, username := "admin", email := none, role := "admin" }

/-- The claims of a user token, drawn from the verified record. -/
def userPayload (user : UserDoc) : Payload :=
  { _id := some user._id, username := user.username, email := some user.email, role := "user" }

/-- The cookie `login` sets: `res.cookie('token', token, ...)`. -/
def tokenCookie (env : Env) (token : Token) : Cookie :=
  { name := "token"
    value := token
    options := { httpOnly := true
                 secure := env.NODE_ENV == some "production"
                 sameSite := "Strict" } }

/-- The handler `register`. -/
def register (env : Env) (w : World) (body : RegisterBody) : Outcome :=
  if falsy body.username || falsy body.email || falsy body.password then
    { res := renderError 400 "register" "None of the fields should be empty"
      world := w
      calls := [] }
  else
    let username := body.username.getD ""
    let email := body.email.getD ""
    let password := body.password.getD ""
    if !isStrongPassword password registerStrength then
      { res := renderError 400 "register"
          "Password must be at least 8 characters long and include uppercase, lowercase, number, and special character."
        world := w
        calls := [] }
    else
      match User.create env w.users username email password with
      | .ok users =>
        { res := redirectTo "/login"
          world := { w with users := users }
          calls := [.userCreate username email password] }
      | .error (.validation messages) =>
        { res := renderError 400 "register" (joinComma messages)
          world := w
          calls := [.userCreate username email password] }
      | .error .duplicateKey =>
        { res := renderError 400 "register" "Email already exists"
          world := w
          calls := [.userCreate username email password] }
      | .error .other =>
        { res := renderError 400 "register" "Something went wrong"
          world := w
          calls := [.userCreate username email password] }

/-- The handler `login`. An error thrown by `jwt.sign` leaves the handler before
any cookie is set and goes through `autoCatchFn`. -/
def login (env : Env) (w : World) (body : LoginBody) : Outcome :=
  if falsy body.username || falsy body.password then
    { res := renderError 400 "login" "None of the fields should be empty"
      world := w
      calls := [] }
  else
    let username := body.username.getD ""
    let password := body.password.getD ""
    if username == "admin" && some password == env.ADMIN_PASSWORD then
      match jwtSign env adminPayload with
      | .error _ => autoCatchFn w []
      | .ok token =>
        { res := { status := 302
                   cookies := [tokenCookie env token]
                   cleared := []
                   body := .redirect "/admin/home" }
          world := w
          calls := [] }
    else
      match User.findOne env w.users (toLowerCase env username) with
      | none =>
        { res := renderError 401 "login" "User cannot be found"
          world := w
          calls := [.userFindOne (toLowerCase env username)] }
      | some user =>
        if !user.verifyPassword env password then
          { res := renderError 401 "login" "Invalid password"
            world := w
            calls := [.userFindOne (toLowerCase env username),
                      .verifyPassword user._id password] }
        else
          match jwtSign env (userPayload user) with
          | .error _ =>
            autoCatchFn w [.userFindOne (toLowerCase env username),
                           .verifyPassword user._id password]
          | .ok token =>
            { res := { status := 302
                       cookies := [tokenCookie env token]
                       cleared := []
                       body := .redirect "/dashboard" }
              world := w
              calls := [.userFindOne (toLowerCase env username),
                        .verifyPassword user._id password] }

/-- The handler `logout`; `cookieToken` is `req.cookies?.token`. -/
def logout (env : Env) (w : World) (cookieToken : Option String) : Outcome :=
  let token := cookieToken.getD ""
  let revoked : World × List Call :=
    if !falsy cookieToken then
      ({ w with registry := env.blackListToken token w.registry }, [.blackListToken token])
    else (w, [])
  { res := { status := 302, cookies := [], cleared := ["token"], body := .redirect "/login" }
    world := revoked.1
    calls := revoked.2 }

/-- The world before any request: no user, nothing revoked. -/
def World.empty : World := { users := [], registry := [] }

/-- The worlds the three handlers can produce from the empty one. -/
inductive Reachable (env : Env) : World → Prop where
  | empty : Reachable env World.empty
  | register (w : World) (body : RegisterBody) :
      Reachable env w → Reachable env (register env w body).world
  | login (w : World) (body : LoginBody) :
      Reachable env w → Reachable env (login env w body).world
  | logout (w : World) (cookieToken : Option String) :
      Reachable env w → Reachable env (logout env w cookieToken).world

/-- A sample of the engine's case conversion, one character at a time: ASCII,
the Latin-1 capitals, `U+0130`, the Kelvin sign and the Angstrom sign. Every
other character is left as it is, so this is the engine's conversion only on
strings made of the characters named; it serves to evaluate the handlers on the
sample inputs of this file. -/
def sampleLowerChar (c : Char) : List Char :=
  if isUpperAZ c then [Char.ofNat (c.toNat + 32)]
  else if 0xC0 ≤ c.toNat && c.toNat ≤ 0xDE && c.toNat != 0xD7 then [Char.ofNat (c.toNat + 32)]
  else if c.toNat == 0x130 then [Char.ofNat 0x69, Char.ofNat 0x307]
  else if c.toNat == 0x212A then [Char.ofNat 0x6B]
  else if c.toNat == 0x212B then [Char.ofNat 0xE5]
  else [c]

/-- The sample case conversion of a string. -/
def sampleLowerCase (s : String) : String := ⟨(s.data.map sampleLowerChar).flatten⟩

/-- A concrete environment for evaluating the handlers: the administrator secret
is `S3cret!admin`, the signing secret is `signing-key`, the case conversion is
`sampleLowerCase`, an address is valid when it has an `@`, a hash is the
password behind a fixed prefix. -/
def demoEnv : Env :=
  { ADMIN_PASSWORD := some "S3cret!admin"
    JWT_SECRET := some "signing-key"
    NODE_ENV := some "production"
    unicodeLowerCase := sampleLowerCase
    isEmail := fun s => s.data.contains '@'
    bcryptHash := fun p => "$2b$10$" ++ p
    bcryptCompare := fun p h => h == "$2b$10$" ++ p
    objectId := fun n => "oid" ++ toString n
    createId := fun n => "cuid" ++ toString n
    blackListToken := fun t r => if r.any (fun e => e.1 == t) then r else (t, 0) :: r }

/-! ## Specification-side definitions and sample worlds -/

/-- The strength policy in the words of the specification: a password fails it
when it has fewer than 8 characters (JavaScript string length), or no upper-case
letter, or no lower-case letter, or no digit, or no symbol. -/
def failsStrengthPolicy (password : String) : Bool :=
  decide (jsLength password < 8) || !password.data.any isUpperAZ ||
  !password.data.any isLowerAZ || !password.data.any isDigit09 ||
  !password.data.any fun c => symbolChars.contains c

/-- A response that reports a failure: it renders a view with an error. -/
def Response.failed (r : Response) : Bool :=
  match r.body with
  | .render _ (some _) => true
  | .renderPage _ _ _ => true
  | _ => false

/-- The concrete environment with the administrator secret set to the empty
string (`ADMIN_PASSWORD=` in the `.env` file). -/
def emptySecretEnv : Env := { demoEnv with ADMIN_PASSWORD := some "" }

/-- The concrete environment with no signing secret (`JWT_SECRET` unset). -/
def noSigningKeyEnv : Env := { demoEnv with JWT_SECRET := none }

/-- What the schema guarantees of a stored document: its username passed the
validators and is trimmed, its email is not empty and passed `isEmail`. -/
def DocOk (env : Env) (d : UserDoc) : Prop :=
  validateUsername env d.username = none ∧ trim d.username = d.username ∧
  d.email ≠ "" ∧ env.isEmail d.email = true

/-- The invariant of the `User` collection: every document is as the schema
guarantees and no two documents share an email. -/
def StoreOk (env : Env) (users : List UserDoc) : Prop :=
  (∀ d ∈ users, DocOk env d) ∧ (users.map fun d => d.email).Nodup

/-- A first registration: user `Bob`. -/
def bobBody : RegisterBody :=
  { username := some "Bob", email := some "Bob@Example.com", password := some "Str0ng!pass" }

/-- The world after `Bob` registered on the empty one. -/
def bobWorld : World := (register demoEnv World.empty bobBody).world

/-- The document stored for `Bob`. -/
def bobDoc : UserDoc :=
  { _id := "oid0", id := "cuid0", username := "bob", email := "bob@example.com",
    password := "$2b$10$Str0ng!pass" }

/-- A second registration under the same username in other letter case, with
another email and another password. -/
def secondBobBody : RegisterBody :=
  { username := some "BOB", email := some "bob2@example.com", password := some "An0ther!pass" }

/-- The world after the second registration. -/
def twoBobsWorld : World := (register demoEnv bobWorld secondBobBody).world

/-- A registration whose email has a letter outside ASCII. -/
def reneBody : RegisterBody :=
  { username := some "rene", email := some "René@Example.com", password := some "Str0ng!pass" }

/-- The world after that registration on the empty one. -/
def reneWorld : World := (register demoEnv World.empty reneBody).world

/-- The document stored for it. -/
def reneDoc : UserDoc :=
  { _id := "oid0", id := "cuid0", username := "rene", email := "rené@example.com",
    password := "$2b$10$Str0ng!pass" }

/-- The username rule as the schema's message and the header comment of the
model word it: not empty, and only letters, digits, the space and `_`. -/
def usernameCharsDocumented (str : String) : Bool :=
  !str.data.isEmpty &&
  str.data.all fun c => isLowerAZ c || isUpperAZ c || isDigit09 c || c == ' ' || c == '_'

/-! ## Lemmas on the password analysis -/

theorem classify_uppercase {c : Char} (h : classify c = .uppercase) : isUpperAZ c = true := by
  unfold classify at h
  split at h
  · assumption
  · split at h
    · cases h
    · split at h
      · cases h
      · split at h <;> cases h

theorem classify_lowercase {c : Char} (h : classify c = .lowercase) : isLowerAZ c = true := by
  unfold classify at h
  split at h
  · cases h
  · split at h
    · assumption
    · split at h
      · cases h
      · split at h <;> cases h

theorem classify_number {c : Char} (h : classify c = .number) : isDigit09 c = true := by
  unfold classify at h
  split at h
  · cases h
  · split at h
    · cases h
    · split at h
      · assumption
      · split at h <;> cases h

theorem classify_symbol {c : Char} (h : classify c = .symbol) :
    symbolChars.contains c = true := by
  unfold classify at h
  split at h
  · cases h
  · split at h
    · cases h
    · split at h
      · cases h
      · split at h
        · assumption
        · cases h

theorem any_of_countP_pos {l : List Char} {p q : Char → Bool}
    (hpq : ∀ c, p c = true → q c = true) (h : 1 ≤ l.countP p) : l.any q = true := by
  obtain ⟨c, hc, hp⟩ := List.countP_pos_iff.mp h
  exact List.any_eq_true.mpr ⟨c, hc, hpq c hp⟩

/-- A password that fails the policy as the specification words it is not
strong for the options of `register`. -/
theorem isStrongPassword_of_fails {password : String}
    (h : failsStrengthPolicy password = true) :
    isStrongPassword password registerStrength = false := by
  by_contra hs
  have hs : isStrongPassword password registerStrength = true := by
    cases hb : isStrongPassword password registerStrength
    · exact absurd hb hs
    · rfl
  simp only [isStrongPassword, analyzePassword, registerStrength, Bool.and_eq_true,
    decide_eq_true_eq, ge_iff_le] at hs
  obtain ⟨⟨⟨⟨hlen, hlow⟩, hup⟩, hnum⟩, hsym⟩ := hs
  have h1 := any_of_countP_pos (q := isUpperAZ)
    (fun c hc => classify_uppercase (by simpa using hc)) hup
  have h2 := any_of_countP_pos (q := isLowerAZ)
    (fun c hc => classify_lowercase (by simpa using hc)) hlow
  have h3 := any_of_countP_pos (q := isDigit09)
    (fun c hc => classify_number (by simpa using hc)) hnum
  have h4 := any_of_countP_pos (q := fun c => symbolChars.contains c)
    (fun c hc => classify_symbol (by simpa using hc)) hsym
  have h5 : ¬ jsLength password < 8 := by omega
  unfold failsStrengthPolicy at h
  rw [h1, h2, h3, h4] at h
  simp [h5] at h

/-! ## `register`: rejections before and inside `User.create` -/

/-- C1. For every request whose password fails the strength policy (fewer than 8
characters, or no upper-case letter, or no lower-case letter, or no digit, or no
symbol), whatever the username and the email, `register` answers with status 400
and an error rendered on the register view, calls no collaborator (so never
`User.create`), and leaves the world, hence the stored users, unchanged. -/
theorem register_rejects_weak_password (env : Env) (w : World)
    (username email : Option String) (password : String)
    (hweak : failsStrengthPolicy password = true) :
    (register env w ⟨username, email, some password⟩).res.status = 400 ∧
    (∃ msg, (register env w ⟨username, email, some password⟩).res.body =
        .render "register" (some msg)) ∧
    (∀ u e p, Call.userCreate u e p ∉ (register env w ⟨username, email, some password⟩).calls) ∧
    (register env w ⟨username, email, some password⟩).world = w := by
  have hs := isStrongPassword_of_fails hweak
  unfold register
  split
  · simp [renderError]
  · simp [hs, renderError]

/-- C1, at the three passwords the specification names: `short`,
`alllowercase1!` and `NOLOWER123!`. -/
theorem register_rejects_weak_password_witness :
    (failsStrengthPolicy "short" = true ∧ failsStrengthPolicy "alllowercase1!" = true ∧
      failsStrengthPolicy "NOLOWER123!" = true) ∧
    (register demoEnv World.empty ⟨some "bob", some "bob@example.com", some "short"⟩).res.status
      = 400 ∧
    (register demoEnv World.empty ⟨some "bob", some "bob@example.com", some "short"⟩).world
      = World.empty :=
  ⟨by decide,
   (register_rejects_weak_password demoEnv World.empty (some "bob") (some "bob@example.com")
      "short" (by decide)).1,
   (register_rejects_weak_password demoEnv World.empty (some "bob") (some "bob@example.com")
      "short" (by decide)).2.2.2⟩

/-! ## Lower-casing -/

theorem toLowerCase_of_ascii (env : Env) (s : String) (h : isAscii s = true) :
    toLowerCase env s = asciiLowerCase s := by
  simp [toLowerCase, h]

theorem toLowerCase_empty (env : Env) : toLowerCase env "" = "" :=
  toLowerCase_of_ascii env "" (by decide)

theorem toLowerCase_admin (env : Env) : toLowerCase env "admin" = "admin" := by
  rw [toLowerCase_of_ascii env "admin" (by decide)]
  decide

theorem validateUsername_admin (env : Env) :
    validateUsername env "admin" = some "Name admin is reserved" := by
  have h : ("admin" == "") = false := by decide
  simp [validateUsername, usernameNotReserved, toLowerCase_admin, h]

theorem validateUsername_empty (env : Env) :
    validateUsername env "" = some "Path `username` is required." := by
  simp [validateUsername]

theorem setUsername_empty (env : Env) : setUsername env "" = "" := by
  rw [setUsername, toLowerCase_empty]
  decide

theorem setUsername_admin (env : Env) : setUsername env "admin" = "admin" := by
  rw [setUsername, toLowerCase_admin]
  decide

theorem validateUsername_of_lower_admin (env : Env) {username : String}
    (h : toLowerCase env username = "admin") :
    validateUsername env (setUsername env username) = some "Name admin is reserved" := by
  have ht : trim "admin" = "admin" := by decide
  rw [setUsername, h, ht]
  exact validateUsername_admin env

theorem create_rejects_admin (env : Env) (users : List UserDoc) (username email password : String)
    (h : toLowerCase env username = "admin") :
    ∃ msgs, User.create env users username email password = .error (.validation msgs) := by
  have hne : validationErrors env users (setUsername env username) (setEmail env email)
      password ≠ [] := by
    simp [validationErrors, validateUsername_of_lower_admin env h]
  exact ⟨validationErrors env users (setUsername env username) (setEmail env email) password,
    by simp [User.create, hne]⟩

theorem register_eq_missing (env : Env) (w : World) (b : RegisterBody)
    (h : (falsy b.username || falsy b.email || falsy b.password) = true) :
    register env w b =
      { res := renderError 400 "register" "None of the fields should be empty"
        world := w
        calls := [] } := by
  simp only [register, h, if_true]

theorem register_eq_weak (env : Env) (w : World) (b : RegisterBody)
    (h : (falsy b.username || falsy b.email || falsy b.password) = false)
    (hs : isStrongPassword (b.password.getD "") registerStrength = false) :
    register env w b =
      { res := renderError 400 "register"
          "Password must be at least 8 characters long and include uppercase, lowercase, number, and special character."
        world := w
        calls := [] } := by
  simp [register, h, hs]

theorem register_eq_create (env : Env) (w : World) (b : RegisterBody)
    (h : (falsy b.username || falsy b.email || falsy b.password) = false)
    (hs : isStrongPassword (b.password.getD "") registerStrength = true) :
    register env w b =
      match User.create env w.users (b.username.getD "") (b.email.getD "")
          (b.password.getD "") with
      | .ok users =>
        { res := redirectTo "/login"
          world := { w with users := users }
          calls := [.userCreate (b.username.getD "") (b.email.getD "") (b.password.getD "")] }
      | .error (.validation messages) =>
        { res := renderError 400 "register" (joinComma messages)
          world := w
          calls := [.userCreate (b.username.getD "") (b.email.getD "") (b.password.getD "")] }
      | .error .duplicateKey =>
        { res := renderError 400 "register" "Email already exists"
          world := w
          calls := [.userCreate (b.username.getD "") (b.email.getD "") (b.password.getD "")] }
      | .error .other =>
        { res := renderError 400 "register" "Something went wrong"
          world := w
          calls := [.userCreate (b.username.getD "") (b.email.getD "") (b.password.getD "")] } := by
  simp [register, h, hs]

/-- C2. For every username equal to `admin` when lower-cased, and for every
email and password (present or not), `register` fails: the status is 400, the
register view is rendered with an error message, the response is not the
redirect to `/login`, and the world, hence the set of user records, is
unchanged. -/
theorem register_rejects_admin (env : Env) (w : World) (username : String)
    (email password : Option String) (hadmin : toLowerCase env username = "admin") :
    (register env w ⟨some username, email, password⟩).res.status = 400 ∧
    (∃ msg, (register env w ⟨some username, email, password⟩).res.body =
        .render "register" (some msg)) ∧
    (register env w ⟨some username, email, password⟩).res.body ≠ .redirect "/login" ∧
    (register env w ⟨some username, email, password⟩).world = w := by
  cases h : (falsy (some username) || falsy email || falsy password)
  · cases hs : isStrongPassword (password.getD "") registerStrength
    · rw [register_eq_weak env w ⟨some username, email, password⟩ h hs]
      simp [renderError]
    · rw [register_eq_create env w ⟨some username, email, password⟩ h hs]
      obtain ⟨msgs, hc⟩ := create_rejects_admin env w.users username (email.getD "")
        (password.getD "") hadmin
      simp [hc, renderError]
  · rw [register_eq_missing env w ⟨some username, email, password⟩ h]
    simp [renderError]

/-- C2, at the usernames `admin`, `Admin` and `ADMIN`. -/
theorem register_rejects_admin_witness :
    (register demoEnv World.empty
        ⟨some "admin", some "root@example.com", some "Str0ng!pass"⟩).res.status = 400 ∧
    (register demoEnv World.empty
        ⟨some "Admin", some "root@example.com", some "Str0ng!pass"⟩).res.status = 400 ∧
    (register demoEnv World.empty
        ⟨some "ADMIN", some "root@example.com", some "Str0ng!pass"⟩).world = World.empty :=
  ⟨(register_rejects_admin demoEnv World.empty "admin" (some "root@example.com")
      (some "Str0ng!pass") (by decide)).1,
   (register_rejects_admin demoEnv World.empty "Admin" (some "root@example.com")
      (some "Str0ng!pass") (by decide)).1,
   (register_rejects_admin demoEnv World.empty "ADMIN" (some "root@example.com")
      (some "Str0ng!pass") (by decide)).2.2.2⟩

/-! ## `logout` -/

/-- C9. For every request, `logout` clears the `token` cookie, sets none and
redirects to `/login`, whether or not a token cookie was present. With a
non-empty token cookie it calls `blackListToken` exactly once, on that token,
and the registry is what that one call returns; without a token cookie it makes
no call and the world is unchanged. The users are never touched. -/
theorem logout_clears_cookie_and_redirects (env : Env) (w : World)
    (cookieToken : Option String) :
    (logout env w cookieToken).res.cleared = ["token"] ∧
    (logout env w cookieToken).res.cookies = [] ∧
    (logout env w cookieToken).res.body = .redirect "/login" ∧
    (logout env w cookieToken).world.users = w.users ∧
    (∀ t, cookieToken = some t → t ≠ "" →
      (logout env w cookieToken).calls = [.blackListToken t] ∧
      (logout env w cookieToken).world.registry = env.blackListToken t w.registry) ∧
    (cookieToken = none →
      (logout env w cookieToken).calls = [] ∧ (logout env w cookieToken).world = w) := by
  refine ⟨rfl, rfl, rfl, ?_, ?_, ?_⟩
  · unfold logout
    split <;> rfl
  · intro t ht hne
    subst ht
    simp [logout, falsy, hne]
  · intro ht
    subst ht
    simp [logout, falsy]

/-! ## `jwt.sign` and the ways through `login` -/

theorem jwtSign_ok (env : Env) (payload : Payload) (k : String)
    (hk : env.JWT_SECRET = some k) (hne : k ≠ "") :
    jwtSign env payload = .ok { payload := payload, secret := k, expiresIn := "2h" } := by
  simp [jwtSign, hk, hne]

theorem jwtSign_error (env : Env) (payload : Payload)
    (h : ∀ k, env.JWT_SECRET = some k → k = "") :
    jwtSign env payload = .error "secretOrPrivateKey must have a value" := by
  unfold jwtSign
  cases hk : env.JWT_SECRET with
  | none => rfl
  | some k => simp [h k hk]

theorem signing_cases (env : Env) :
    (∃ k, k ≠ "" ∧ env.JWT_SECRET = some k) ∨ (∀ k, env.JWT_SECRET = some k → k = "") := by
  cases hk : env.JWT_SECRET with
  | none => exact Or.inr (fun k h => by cases h)
  | some k =>
    by_cases hne : k = ""
    · exact Or.inr (fun k1 h => by cases h; exact hne)
    · exact Or.inl ⟨k, hne, rfl⟩

theorem login_eq_missing (env : Env) (w : World) (b : LoginBody)
    (h : (falsy b.username || falsy b.password) = true) :
    login env w b =
      { res := renderError 400 "login" "None of the fields should be empty"
        world := w
        calls := [] } := by
  simp only [login, h, if_true]

theorem login_eq_admin (env : Env) (w : World) (b : LoginBody) (k : String)
    (h : (falsy b.username || falsy b.password) = false)
    (ha : (b.username.getD "" == "admin" && some (b.password.getD "") == env.ADMIN_PASSWORD)
      = true)
    (hk : env.JWT_SECRET = some k) (hne : k ≠ "") :
    login env w b =
      { res := { status := 302
                 cookies := [tokenCookie env
                   { payload := adminPayload, secret := k, expiresIn := "2h" }]
                 cleared := []
                 body := .redirect "/admin/home" }
        world := w
        calls := [] } := by
  simp only [login, h, ha, if_true, if_false, Bool.false_eq_true,
    jwtSign_ok env adminPayload k hk hne]

theorem login_eq_admin_throw (env : Env) (w : World) (b : LoginBody)
    (h : (falsy b.username || falsy b.password) = false)
    (ha : (b.username.getD "" == "admin" && some (b.password.getD "") == env.ADMIN_PASSWORD)
      = true)
    (hk : ∀ k, env.JWT_SECRET = some k → k = "") :
    login env w b = autoCatchFn w [] := by
  simp only [login, h, ha, if_true, if_false, Bool.false_eq_true,
    jwtSign_error env adminPayload hk]

theorem login_eq_not_found (env : Env) (w : World) (b : LoginBody)
    (h : (falsy b.username || falsy b.password) = false)
    (ha : (b.username.getD "" == "admin" && some (b.password.getD "") == env.ADMIN_PASSWORD)
      = false)
    (hf : User.findOne env w.users (toLowerCase env (b.username.getD "")) = none) :
    login env w b =
      { res := renderError 401 "login" "User cannot be found"
        world := w
        calls := [.userFindOne (toLowerCase env (b.username.getD ""))] } := by
  simp only [login, h, ha, hf, if_false, Bool.false_eq_true]

theorem login_eq_bad_password (env : Env) (w : World) (b : LoginBody) (user : UserDoc)
    (h : (falsy b.username || falsy b.password) = false)
    (ha : (b.username.getD "" == "admin" && some (b.password.getD "") == env.ADMIN_PASSWORD)
      = false)
    (hf : User.findOne env w.users (toLowerCase env (b.username.getD "")) = some user)
    (hv : user.verifyPassword env (b.password.getD "") = false) :
    login env w b =
      { res := renderError 401 "login" "Invalid password"
        world := w
        calls := [.userFindOne (toLowerCase env (b.username.getD "")),
                  .verifyPassword user._id (b.password.getD "")] } := by
  simp [login, h, ha, hf, hv]

theorem login_eq_user (env : Env) (w : World) (b : LoginBody) (user : UserDoc) (k : String)
    (h : (falsy b.username || falsy b.password) = false)
    (ha : (b.username.getD "" == "admin" && some (b.password.getD "") == env.ADMIN_PASSWORD)
      = false)
    (hf : User.findOne env w.users (toLowerCase env (b.username.getD "")) = some user)
    (hv : user.verifyPassword env (b.password.getD "") = true)
    (hk : env.JWT_SECRET = some k) (hne : k ≠ "") :
    login env w b =
      { res := { status := 302
                 cookies := [tokenCookie env
                   { payload := userPayload user, secret := k, expiresIn := "2h" }]
                 cleared := []
                 body := .redirect "/dashboard" }
        world := w
        calls := [.userFindOne (toLowerCase env (b.username.getD "")),
                  .verifyPassword user._id (b.password.getD "")] } := by
  simp [login, h, ha, hf, hv, jwtSign_ok env (userPayload user) k hk hne]

theorem login_eq_user_throw (env : Env) (w : World) (b : LoginBody) (user : UserDoc)
    (h : (falsy b.username || falsy b.password) = false)
    (ha : (b.username.getD "" == "admin" && some (b.password.getD "") == env.ADMIN_PASSWORD)
      = false)
    (hf : User.findOne env w.users (toLowerCase env (b.username.getD "")) = some user)
    (hv : user.verifyPassword env (b.password.getD "") = true)
    (hk : ∀ k, env.JWT_SECRET = some k → k = "") :
    login env w b =
      autoCatchFn w [.userFindOne (toLowerCase env (b.username.getD "")),
                     .verifyPassword user._id (b.password.getD "")] := by
  simp [login, h, ha, hf, hv, jwtSign_error env (userPayload user) hk]

/-- C8 as stated fails: with `JWT_SECRET` unset, the login of a registered user
with the right password, both fields present, is a failing login (the error
page, no cookie) whose status is 500, neither 400 nor 401. -/
theorem login_without_signing_key_is_500 :
    (falsy (some "bob") || falsy (some "Str0ng!pass")) = false ∧
    (login noSigningKeyEnv bobWorld ⟨some "bob", some "Str0ng!pass"⟩).res.failed = true ∧
    (login noSigningKeyEnv bobWorld ⟨some "bob", some "Str0ng!pass"⟩).res.status = 500 ∧
    (login noSigningKeyEnv bobWorld ⟨some "bob", some "Str0ng!pass"⟩).res.cookies = [] := by
  decide

/-- C8, amended. Every login either succeeds (status 302, one token cookie, no
error rendered) or fails, and a failing login sets no cookie and has status 400
exactly when the username or the password is missing or empty. Its response is
then `None of the fields should be empty` with 400; with both fields present it
is `User cannot be found` with 401 when `User.findOne` finds nobody, `Invalid
password` with 401 when `verifyPassword` says no, and the error page of
`handleError` with 500 when the credentials are accepted (the administrator
pair, or a verified user) but `JWT_SECRET` is unset or empty. The three messages
are distinct. -/
theorem login_failure_status (env : Env) (w : World) (b : LoginBody) :
    ("None of the fields should be empty" ≠ "User cannot be found" ∧
      "None of the fields should be empty" ≠ "Invalid password" ∧
      "User cannot be found" ≠ "Invalid password") ∧
    (((login env w b).res.failed = false ∧ (login env w b).res.status = 302 ∧
        ∃ tok, (login env w b).res.cookies = [tokenCookie env tok]) ∨
     ((login env w b).res.failed = true ∧ (login env w b).res.cookies = [] ∧
      ((login env w b).res.status = 400 ↔ (falsy b.username || falsy b.password) = true) ∧
      (((falsy b.username || falsy b.password) = true ∧
          (login env w b).res = renderError 400 "login" "None of the fields should be empty") ∨
       ((falsy b.username || falsy b.password) = false ∧
          User.findOne env w.users (toLowerCase env (b.username.getD "")) = none ∧
          (login env w b).res = renderError 401 "login" "User cannot be found") ∨
       ((falsy b.username || falsy b.password) = false ∧
          (∃ user, User.findOne env w.users (toLowerCase env (b.username.getD "")) = some user ∧
            user.verifyPassword env (b.password.getD "") = false) ∧
          (login env w b).res = renderError 401 "login" "Invalid password") ∨
       ((falsy b.username || falsy b.password) = false ∧
          ((b.username.getD "" == "admin" &&
              some (b.password.getD "") == env.ADMIN_PASSWORD) = true ∨
            ∃ user, User.findOne env w.users (toLowerCase env (b.username.getD "")) = some user ∧
              user.verifyPassword env (b.password.getD "") = true) ∧
          (∀ k, env.JWT_SECRET = some k → k = "") ∧
          (login env w b).res = handleError ∧ (login env w b).res.status = 500)))) := by
  refine ⟨by decide, ?_⟩
  cases h : (falsy b.username || falsy b.password)
  · cases ha : (b.username.getD "" == "admin" &&
        some (b.password.getD "") == env.ADMIN_PASSWORD)
    · cases hf : User.findOne env w.users (toLowerCase env (b.username.getD "")) with
      | none =>
        rw [login_eq_not_found env w b h ha hf]
        right
        simp [renderError, Response.failed]
      | some user =>
        cases hv : user.verifyPassword env (b.password.getD "")
        · rw [login_eq_bad_password env w b user h ha hf hv]
          right
          simp [renderError, Response.failed, hv]
        · rcases signing_cases env with ⟨k, hne, hk⟩ | hk
          · rw [login_eq_user env w b user k h ha hf hv hk hne]
            left
            exact ⟨rfl, rfl, _, rfl⟩
          · rw [login_eq_user_throw env w b user h ha hf hv hk]
            right
            refine ⟨rfl, rfl, by simp [autoCatchFn, handleError], ?_⟩
            right; right; right
            exact ⟨rfl, Or.inr ⟨user, rfl, hv⟩, hk, rfl, rfl⟩
    · rcases signing_cases env with ⟨k, hne, hk⟩ | hk
      · rw [login_eq_admin env w b k h ha hk hne]
        left
        exact ⟨rfl, rfl, _, rfl⟩
      · rw [login_eq_admin_throw env w b h ha hk]
        right
        refine ⟨rfl, rfl, by simp [autoCatchFn, handleError], ?_⟩
        right; right; right
        exact ⟨rfl, Or.inl rfl, hk, rfl, rfl⟩
  · rw [login_eq_missing env w b h]
    right
    simp [renderError, Response.failed]

theorem falsy_eq_false_iff {v : Option String} :
    falsy v = false ↔ ∃ s, v = some s ∧ s ≠ "" := by
  cases v with
  | none => simp [falsy]
  | some s => simp [falsy]

theorem not_missing_iff {u p : Option String} :
    (falsy u || falsy p) = false ↔ ∃ us ps, u = some us ∧ us ≠ "" ∧ p = some ps ∧ ps ≠ "" := by
  rw [Bool.or_eq_false_iff, falsy_eq_false_iff, falsy_eq_false_iff]
  constructor
  · rintro ⟨⟨us, hu, hus⟩, ps, hp, hps⟩
    exact ⟨us, ps, hu, hus, hp, hps⟩
  · rintro ⟨us, ps, hu, hus, hp, hps⟩
    exact ⟨⟨us, hu, hus⟩, ps, hp, hps⟩

/-- The condition under which `login` takes the administrator branch. -/
theorem admin_branch_iff (env : Env) (b : LoginBody) :
    ((falsy b.username || falsy b.password) = false ∧
      (b.username.getD "" == "admin" && some (b.password.getD "") == env.ADMIN_PASSWORD) = true) ↔
    (b.username = some "admin" ∧
      ∃ p, p ≠ "" ∧ b.password = some p ∧ env.ADMIN_PASSWORD = some p) := by
  rw [not_missing_iff]
  constructor
  · rintro ⟨⟨us, ps, hu, -, hp, hps⟩, ha⟩
    rw [hu, hp] at ha
    simp only [Option.getD_some, Bool.and_eq_true, beq_iff_eq] at ha
    exact ⟨by rw [hu, ha.1], ps, hps, hp, ha.2.symm⟩
  · rintro ⟨hu, p, hp, hbp, hsec⟩
    refine ⟨⟨"admin", p, hu, by decide, hbp, hp⟩, ?_⟩
    rw [hu, hbp, hsec]
    simp

/-- C6 as stated fails, twice. With the administrator secret set to the empty
string, the username is exactly `admin` and the password equals the secret, yet
`login` answers 400 and issues no token. With `JWT_SECRET` unset, the username
is `admin` and the password is the non-empty administrator secret, yet `login`
answers 500 and issues no token. -/
theorem login_admin_match_issues_no_token :
    ((⟨some "admin", some ""⟩ : LoginBody).username = some "admin" ∧
      (⟨some "admin", some ""⟩ : LoginBody).password = emptySecretEnv.ADMIN_PASSWORD ∧
      (login emptySecretEnv World.empty ⟨some "admin", some ""⟩).res.cookies = [] ∧
      (login emptySecretEnv World.empty ⟨some "admin", some ""⟩).res.status = 400) ∧
    ((⟨some "admin", some "S3cret!admin"⟩ : LoginBody).username = some "admin" ∧
      (⟨some "admin", some "S3cret!admin"⟩ : LoginBody).password =
        noSigningKeyEnv.ADMIN_PASSWORD ∧
      (login noSigningKeyEnv World.empty ⟨some "admin", some "S3cret!admin"⟩).res.cookies = [] ∧
      (login noSigningKeyEnv World.empty ⟨some "admin", some "S3cret!admin"⟩).res.status
        = 500) := by
  decide

/-- C6, amended. `login` issues a token with role `admin` if and only if the
submitted username is exactly `admin`, the submitted password is non-empty and
equals the configured administrator secret (an unset secret equals no
password), and the signing secret `JWT_SECRET` is set and non-empty; that token
carries username `admin`, no `_id` and no email, and the client is redirected to
`/admin/home`. Every other token `login` issues has role `user` and carries the
`_id`, username and email of a stored user record that `User.findOne` returned
and whose password was verified, with a redirect to `/dashboard`. When
`JWT_SECRET` is unset or empty `login` issues no token at all. -/
theorem login_token_roles (env : Env) (w : World) (b : LoginBody) :
    ((∃ c ∈ (login env w b).res.cookies, c.value.payload.role = "admin") ↔
      ((b.username = some "admin" ∧
        ∃ p, p ≠ "" ∧ b.password = some p ∧ env.ADMIN_PASSWORD = some p) ∧
        ∃ k, k ≠ "" ∧ env.JWT_SECRET = some k)) ∧
    (∀ c ∈ (login env w b).res.cookies, c.value.payload.role = "admin" →
      c.name = "token" ∧
      c.value.payload = { _id := none, username := "admin", email := none, role := "admin" } ∧
      (login env w b).res.body = .redirect "/admin/home") ∧
    (∀ c ∈ (login env w b).res.cookies, c.value.payload.role ≠ "admin" →
      c.name = "token" ∧
      c.value.payload.role = "user" ∧
      (login env w b).res.body = .redirect "/dashboard" ∧
      ∃ user, user ∈ w.users ∧
        User.findOne env w.users (toLowerCase env (b.username.getD "")) = some user ∧
        user.verifyPassword env (b.password.getD "") = true ∧
        c.value.payload = { _id := some user._id, username := user.username,
                            email := some user.email, role := "user" }) ∧
    ((∀ k, env.JWT_SECRET = some k → k = "") → (login env w b).res.cookies = []) := by
  rw [← admin_branch_iff env b]
  have hnokey : ∀ (hk : ∀ k, env.JWT_SECRET = some k → k = ""),
      ¬ ∃ k, k ≠ "" ∧ env.JWT_SECRET = some k := by
    rintro hk ⟨k, hne, hks⟩
    exact hne (hk k hks)
  cases h : (falsy b.username || falsy b.password)
  · cases ha : (b.username.getD "" == "admin" &&
        some (b.password.getD "") == env.ADMIN_PASSWORD)
    · cases hf : User.findOne env w.users (toLowerCase env (b.username.getD "")) with
      | none =>
        rw [login_eq_not_found env w b h ha hf]
        simp [renderError]
      | some user =>
        cases hv : user.verifyPassword env (b.password.getD "")
        · rw [login_eq_bad_password env w b user h ha hf hv]
          simp [renderError]
        · have hmem : user ∈ w.users := List.mem_of_find?_eq_some hf
          rcases signing_cases env with ⟨k, hne, hk⟩ | hk
          · rw [login_eq_user env w b user k h ha hf hv hk hne]
            simp only [tokenCookie, userPayload]
            refine ⟨by simp, by simp, ?_, ?_⟩
            · intro c hc _
              simp only [List.mem_singleton] at hc
              subst hc
              exact ⟨rfl, rfl, trivial, user, hmem, rfl, hv, rfl⟩
            · intro hk0
              exact absurd (hk0 k hk) hne
          · rw [login_eq_user_throw env w b user h ha hf hv hk]
            simp [autoCatchFn, handleError]
    · rcases signing_cases env with ⟨k, hne, hk⟩ | hk
      · rw [login_eq_admin env w b k h ha hk hne]
        simp only [tokenCookie, adminPayload]
        refine ⟨?_, by simp, by simp, ?_⟩
        · constructor
          · intro _
            exact ⟨by simp, k, hne, hk⟩
          · intro _
            exact ⟨_, List.mem_singleton.mpr rfl, rfl⟩
        · intro hk0
          exact absurd (hk0 k hk) hne
      · rw [login_eq_admin_throw env w b h ha hk]
        simp [autoCatchFn, handleError, hnokey hk]
  · rw [login_eq_missing env w b h]
    simp [renderError]

/-! ## Trimming -/

theorem trimList_idem {α : Type} (p : α → Bool) (l : List α) :
    ((((l.dropWhile p).rdropWhile p).dropWhile p).rdropWhile p) =
      (l.dropWhile p).rdropWhile p := by
  have hdrop : ((l.dropWhile p).rdropWhile p).dropWhile p = (l.dropWhile p).rdropWhile p := by
    have hpre : (l.dropWhile p).rdropWhile p <+: l.dropWhile p := List.rdropWhile_prefix p _
    cases hm : l.dropWhile p with
    | nil => simp
    | cons a m =>
      have ha : ¬ p a = true := by
        have := List.head_dropWhile_not p l (by rw [hm]; simp)
        simpa [hm] using this
      rw [hm] at hpre
      cases ht : (a :: m).rdropWhile p with
      | nil => rfl
      | cons x t =>
        rw [ht] at hpre
        obtain ⟨r, hr⟩ := hpre
        have hx : x = a := by
          simp only [List.cons_append, List.cons.injEq] at hr
          exact hr.1
        subst hx
        simp [List.dropWhile, ha]
  rw [hdrop, List.rdropWhile_idempotent]

theorem trim_idem (s : String) : trim (trim s) = trim s := by
  simp only [trim]
  rw [trimList_idem]

theorem trim_setUsername (env : Env) (s : String) :
    trim (setUsername env s) = setUsername env s := by
  simp [setUsername, trim_idem]

/-! ## `User.create` and the invariant of the collection -/

theorem validateEmail_eq_none_iff (env : Env) (users : List UserDoc) (v : String) :
    validateEmail env users v = none ↔
      v ≠ "" ∧ env.isEmail v = true ∧ ∀ d ∈ users, d.email ≠ v := by
  unfold validateEmail
  by_cases h1 : v = ""
  · simp [h1]
  · cases h2 : env.isEmail v
    · simp [h1]
    · by_cases h3 : users.any (fun d => d.email == v) = true
      · have h3' := h3
        simp only [List.any_eq_true, beq_iff_eq] at h3'
        obtain ⟨d, hd, hdv⟩ := h3'
        simp only [beq_iff_eq, h1, if_false, Bool.not_true, Bool.false_eq_true, h3, if_true,
          ne_eq, not_false_eq_true, true_and, false_iff, reduceCtorEq, not_forall]
        exact ⟨d, hd, fun hne => hne hdv⟩
      · have h3' : ∀ d ∈ users, d.email ≠ v := by
          intro d hd hdv
          exact h3 (List.any_eq_true.mpr ⟨d, hd, by simp [hdv]⟩)
        simp only [beq_iff_eq, h1, if_false, Bool.not_true, Bool.false_eq_true, h3, ne_eq,
          not_false_eq_true, true_and]
        exact ⟨fun _ => h3', fun _ => trivial⟩

theorem validatePassword_eq_none_iff (v : String) : validatePassword v = none ↔ v ≠ "" := by
  unfold validatePassword
  by_cases h : v = "" <;> simp [h]

theorem validationErrors_eq_nil_iff (env : Env) (users : List UserDoc) (u e p : String) :
    validationErrors env users u e p = [] ↔
      validateUsername env u = none ∧ validateEmail env users e = none ∧
        validatePassword p = none := by
  unfold validationErrors
  cases validateUsername env u <;> cases validateEmail env users e <;>
    cases validatePassword p <;> simp

theorem create_eq_ok (env : Env) (users : List UserDoc) (username email password : String)
    (hu : validateUsername env (setUsername env username) = none)
    (he : validateEmail env users (setEmail env email) = none)
    (hp : password ≠ "") :
    User.create env users username email password =
      .ok (users ++ [User.newDoc env users username email password]) := by
  have hnil := (validationErrors_eq_nil_iff env users (setUsername env username) (setEmail env email)
    password).mpr ⟨hu, he, (validatePassword_eq_none_iff password).mpr hp⟩
  have hfresh := ((validateEmail_eq_none_iff env users (setEmail env email)).mp he).2.2
  have hany : users.any (fun d => d.email == setEmail env email) = false := by
    rw [List.any_eq_false]
    intro d hd
    simpa using hfresh d hd
  simp [User.create, hnil, hany]

theorem create_ok_inv (env : Env) (users users1 : List UserDoc)
    (username email password : String)
    (h : User.create env users username email password = .ok users1) :
    users1 = users ++ [User.newDoc env users username email password] ∧
    validateUsername env (setUsername env username) = none ∧
    validateEmail env users (setEmail env email) = none := by
  unfold User.create at h
  by_cases hnil : validationErrors env users (setUsername env username) (setEmail env email) password = []
  · have hv := (validationErrors_eq_nil_iff env users _ _ _).mp hnil
    cases hany : users.any (fun d => d.email == setEmail env email)
    · simp only [hnil, ne_eq, not_true_eq_false, if_false, hany, Bool.false_eq_true,
        Except.ok.injEq] at h
      exact ⟨h.symm, hv.1, hv.2.1⟩
    · simp [hnil, hany] at h
  · simp [hnil] at h

theorem storeOk_create (env : Env) (users users1 : List UserDoc)
    (username email password : String) (hs : StoreOk env users)
    (h : User.create env users username email password = .ok users1) :
    StoreOk env users1 := by
  obtain ⟨hu1, hvu, hve⟩ := create_ok_inv env users users1 username email password h
  obtain ⟨hne, hmail, hfresh⟩ := (validateEmail_eq_none_iff env users _).mp hve
  subst hu1
  refine ⟨?_, ?_⟩
  · intro d hd
    rcases List.mem_append.mp hd with hd | hd
    · exact hs.1 d hd
    · simp only [List.mem_singleton] at hd
      subst hd
      exact ⟨hvu, trim_setUsername env username, hne, hmail⟩
  · rw [List.map_append, List.nodup_append]
    refine ⟨hs.2, by simp, ?_⟩
    intro a ha hb
    simp only [List.map_cons, List.map_nil, List.mem_singleton] at hb
    obtain ⟨d, hd, hda⟩ := List.mem_map.mp ha
    exact hfresh d hd (by rw [hda, hb]; rfl)

theorem register_world (env : Env) (w : World) (b : RegisterBody) :
    (register env w b).world = w ∨
    ∃ users1, User.create env w.users (b.username.getD "") (b.email.getD "")
        (b.password.getD "") = .ok users1 ∧
      (register env w b).world = { w with users := users1 } := by
  cases h : (falsy b.username || falsy b.email || falsy b.password)
  · cases hs : isStrongPassword (b.password.getD "") registerStrength
    · rw [register_eq_weak env w b h hs]
      exact Or.inl rfl
    · rw [register_eq_create env w b h hs]
      cases hc : User.create env w.users (b.username.getD "") (b.email.getD "")
          (b.password.getD "") with
      | ok users1 => exact Or.inr ⟨users1, rfl, rfl⟩
      | error e =>
        cases e with
        | validation msgs => exact Or.inl rfl
        | duplicateKey => exact Or.inl rfl
        | other => exact Or.inl rfl
  · rw [register_eq_missing env w b h]
    exact Or.inl rfl

theorem login_world (env : Env) (w : World) (b : LoginBody) : (login env w b).world = w := by
  cases h : (falsy b.username || falsy b.password)
  · cases ha : (b.username.getD "" == "admin" &&
        some (b.password.getD "") == env.ADMIN_PASSWORD)
    · cases hf : User.findOne env w.users (toLowerCase env (b.username.getD "")) with
      | none => rw [login_eq_not_found env w b h ha hf]
      | some user =>
        cases hv : user.verifyPassword env (b.password.getD "")
        · rw [login_eq_bad_password env w b user h ha hf hv]
        · rcases signing_cases env with ⟨k, hne, hk⟩ | hk
          · rw [login_eq_user env w b user k h ha hf hv hk hne]
          · rw [login_eq_user_throw env w b user h ha hf hv hk]
            rfl
    · rcases signing_cases env with ⟨k, hne, hk⟩ | hk
      · rw [login_eq_admin env w b k h ha hk hne]
      · rw [login_eq_admin_throw env w b h ha hk]
        rfl
  · rw [login_eq_missing env w b h]

theorem logout_users (env : Env) (w : World) (t : Option String) :
    (logout env w t).world.users = w.users := by
  unfold logout
  split <;> rfl

/-- Every world the handlers can produce satisfies the invariant of the
collection. -/
theorem storeOk_of_reachable (env : Env) (w : World) (h : Reachable env w) :
    StoreOk env w.users := by
  induction h with
  | empty => exact ⟨by simp [World.empty], by simp [World.empty]⟩
  | register w b _ ih =>
    rcases register_world env w b with hw | ⟨users1, hc, hw⟩
    · rw [hw]
      exact ih
    · rw [hw]
      exact storeOk_create env w.users users1 _ _ _ ih hc
  | login w b _ ih =>
    rw [login_world]
    exact ih
  | logout w t _ ih =>
    rw [logout_users]
    exact ih

/-! ## `login` as `admin` with a wrong password -/

theorem findOne_admin_none (env : Env) (users : List UserDoc) (hs : StoreOk env users) :
    User.findOne env users (toLowerCase env "admin") = none := by
  unfold User.findOne
  rw [toLowerCase_admin, setUsername_admin, List.find?_eq_none]
  intro d hd hda
  have hv := (hs.1 d hd).1
  simp only [beq_iff_eq] at hda
  rw [hda, validateUsername_admin] at hv
  cases hv

/-- C3 as stated fails: with username `admin` and a non-empty password that is
not the administrator secret, `login` does call `User.findOne`. -/
theorem admin_fallthrough_queries_store :
    ("wrong" ≠ "" ∧ demoEnv.ADMIN_PASSWORD ≠ some "wrong") ∧
    Call.userFindOne "admin" ∈
      (login demoEnv World.empty ⟨some "admin", some "wrong"⟩).calls := by
  decide

/-- C3, amended. For every non-empty password different from the administrator
secret, `login` with username `admin` falls through to the Credential Store:
`User.findOne` is called once, with username `admin`, and nothing else is
called. On every world reachable through the handlers, where no record is named
`admin`, that login fails: status 401 with `User cannot be found`, no token
cookie, world unchanged. -/
theorem login_admin_wrong_password (env : Env) (w : World) (hw : Reachable env w)
    (password : String) (hne : password ≠ "") (hwrong : env.ADMIN_PASSWORD ≠ some password) :
    (login env w ⟨some "admin", some password⟩).calls = [.userFindOne "admin"] ∧
    (login env w ⟨some "admin", some password⟩).res.status = 401 ∧
    (login env w ⟨some "admin", some password⟩).res.body =
      .render "login" (some "User cannot be found") ∧
    (login env w ⟨some "admin", some password⟩).res.cookies = [] ∧
    (login env w ⟨some "admin", some password⟩).world = w := by
  have h : (falsy (some "admin") || falsy (some password)) = false := by
    simp [falsy, hne]
  have ha : (((some "admin" : Option String).getD "" == "admin" &&
      some ((some password).getD "") == env.ADMIN_PASSWORD)) = false := by
    have : (some password == env.ADMIN_PASSWORD) = false :=
      beq_eq_false_iff_ne.mpr (fun e => hwrong e.symm)
    simp [this]
  have hf := findOne_admin_none env w.users (storeOk_of_reachable env w hw)
  rw [login_eq_not_found env w ⟨some "admin", some password⟩ h ha hf]
  exact ⟨by simp only [Option.getD_some, toLowerCase_admin], rfl, rfl, rfl, rfl⟩

/-- C3 amended, at the password `wrong` on the world where `Bob` is registered. -/
theorem login_admin_wrong_password_witness :
    (login demoEnv bobWorld ⟨some "admin", some "wrong"⟩).calls = [.userFindOne "admin"] ∧
    (login demoEnv bobWorld ⟨some "admin", some "wrong"⟩).res.status = 401 :=
  ⟨(login_admin_wrong_password demoEnv bobWorld
      (Reachable.register World.empty bobBody Reachable.empty) "wrong" (by decide)
      (by decide)).1,
   (login_admin_wrong_password demoEnv bobWorld
      (Reachable.register World.empty bobBody Reachable.empty) "wrong" (by decide)
      (by decide)).2.1⟩

/-! ## `register` on a world that already holds the email or the username -/

theorem username_ne_empty (env : Env) {username : String}
    (h : validateUsername env (setUsername env username) = none) : username ≠ "" := by
  intro he
  subst he
  rw [setUsername_empty, validateUsername_empty] at h
  cases h

theorem username_ne_admin (env : Env) {username : String}
    (h : validateUsername env (setUsername env username) = none) : username ≠ "admin" := by
  intro he
  subst he
  rw [setUsername_admin, validateUsername_admin] at h
  cases h

theorem email_ne_empty (env : Env) (users : List UserDoc) {email : String}
    (h : validateEmail env users (setEmail env email) = none) : email ≠ "" := by
  intro he
  subst he
  have h1 := ((validateEmail_eq_none_iff env users _).mp h).1
  exact h1 (toLowerCase_empty env)

theorem password_ne_empty {password : String}
    (h : isStrongPassword password registerStrength = true) : password ≠ "" := by
  intro he
  subst he
  revert h
  decide

theorem present_of_ne_empty {u e p : String} (hu : u ≠ "") (he : e ≠ "") (hp : p ≠ "") :
    (falsy (some u) || falsy (some e) || falsy (some p)) = false := by
  simp [falsy, hu, he, hp]

/-- C5. On every reachable world that holds a record with email `e`, a register
call whose email is `e` once lower-cased (by `String.prototype.toLowerCase`, as
the schema does), with any valid username (the same or another) and any strong
password, fails with status 400 and the duplicate-email message of the schema,
`email already exits`, and the world is unchanged: no second record is
created. -/
theorem register_rejects_duplicate_email (env : Env) (w : World) (hw : Reachable env w)
    (d : UserDoc) (hd : d ∈ w.users) (username email password : String)
    (he : toLowerCase env email = d.email)
    (hu : validateUsername env (setUsername env username) = none)
    (hp : isStrongPassword password registerStrength = true) :
    (register env w ⟨some username, some email, some password⟩).res.status = 400 ∧
    (register env w ⟨some username, some email, some password⟩).res.body =
      .render "register" (some "email already exits") ∧
    (register env w ⟨some username, some email, some password⟩).world = w := by
  obtain ⟨-, -, hdne, hdmail⟩ := (storeOk_of_reachable env w hw).1 d hd
  have hene : email ≠ "" := by
    intro h0
    subst h0
    exact hdne (he ▸ toLowerCase_empty env)
  have h := present_of_ne_empty (username_ne_empty env hu) hene (password_ne_empty hp)
  have hve : validateEmail env w.users (setEmail env email) = some "email already exits" := by
    have hany : w.users.any (fun x => x.email == setEmail env email) = true :=
      List.any_eq_true.mpr ⟨d, hd, by simp [setEmail, he]⟩
    unfold validateEmail
    rw [hany]
    simp [setEmail, he, hdne, hdmail]
  have hc : User.create env w.users username email password =
      .error (.validation ["email already exits"]) := by
    have hverr : validationErrors env w.users (setUsername env username) (setEmail env email)
        password = ["email already exits"] := by
      simp [validationErrors, hu, hve, (validatePassword_eq_none_iff password).mpr
        (password_ne_empty hp)]
    simp [User.create, hverr]
  rw [register_eq_create env w ⟨some username, some email, some password⟩ h hp]
  simp [hc, renderError, joinComma]

/-- C5, at an email with a letter outside ASCII: `rené@example.com` is stored,
`RENÉ@EXAMPLE.COM` is submitted with another username. -/
theorem register_rejects_duplicate_email_witness :
    (register demoEnv reneWorld
      ⟨some "alice", some "RENÉ@EXAMPLE.COM", some "An0ther!pass"⟩).res.body =
      .render "register" (some "email already exits") ∧
    (register demoEnv reneWorld
      ⟨some "alice", some "RENÉ@EXAMPLE.COM", some "An0ther!pass"⟩).world = reneWorld :=
  (register_rejects_duplicate_email demoEnv reneWorld
    (Reachable.register World.empty reneBody Reachable.empty) reneDoc (by decide)
    "alice" "RENÉ@EXAMPLE.COM" "An0ther!pass" (by decide) (by decide) (by decide)).2

theorem register_eq_ok (env : Env) (w : World) (username email password : String)
    (hu : validateUsername env (setUsername env username) = none)
    (hve : validateEmail env w.users (setEmail env email) = none)
    (hp : isStrongPassword password registerStrength = true) :
    register env w ⟨some username, some email, some password⟩ =
      { res := redirectTo "/login"
        world := { w with users := w.users ++ [User.newDoc env w.users username email password] }
        calls := [.userCreate username email password] } := by
  have h := present_of_ne_empty (username_ne_empty env hu) (email_ne_empty env w.users hve)
    (password_ne_empty hp)
  have hc := create_eq_ok env w.users username email password hu hve (password_ne_empty hp)
  rw [register_eq_create env w ⟨some username, some email, some password⟩ h hp]
  simp only [Option.getD_some, hc]

/-- C4 as stated fails: on the reachable world where `bob` is registered, a
register call with username `BOB`, another valid email and a strong password is
not rejected; it redirects to `/login` and the resulting reachable world holds
two records named `bob`. -/
theorem register_accepts_taken_username :
    (bobDoc ∈ bobWorld.users ∧ toLowerCase demoEnv "BOB" = bobDoc.username ∧
      demoEnv.isEmail (setEmail demoEnv "bob2@example.com") = true ∧
      (∀ x ∈ bobWorld.users, x.email ≠ setEmail demoEnv "bob2@example.com") ∧
      isStrongPassword "An0ther!pass" registerStrength = true) ∧
    ((register demoEnv bobWorld secondBobBody).res = redirectTo "/login" ∧
      (twoBobsWorld.users.map fun d => d.username) = ["bob", "bob"]) ∧
    Reachable demoEnv twoBobsWorld :=
  ⟨by decide, by decide,
   Reachable.register bobWorld secondBobBody
     (Reachable.register World.empty bobBody Reachable.empty)⟩

/-- C4, amended. Username uniqueness is not enforced at registration, only
email uniqueness is. On every reachable world that holds a user with username
`u`, a register call whose username equals `u` once lower-cased, with an email
that passes the schema's validation of the `email` path on that world (not
empty, accepted by `isEmail`, held by no record once lower-cased) and a strong
password, is accepted: it redirects to `/login` and appends one record, which
carries the username `u` again. No two records of a reachable world share an
email, before and after the call. -/
theorem register_accepts_duplicate_username (env : Env) (w : World) (hw : Reachable env w)
    (d : UserDoc) (hd : d ∈ w.users) (username email password : String)
    (hu : toLowerCase env username = d.username)
    (hve : validateEmail env w.users (setEmail env email) = none)
    (hp : isStrongPassword password registerStrength = true) :
    (register env w ⟨some username, some email, some password⟩).res = redirectTo "/login" ∧
    (register env w ⟨some username, some email, some password⟩).world.users =
      w.users ++ [User.newDoc env w.users username email password] ∧
    (User.newDoc env w.users username email password).username = d.username ∧
    (w.users.map fun x => x.email).Nodup ∧
    ((register env w ⟨some username, some email, some password⟩).world.users.map
      fun x => x.email).Nodup := by
  obtain ⟨hdv, hdtrim, -, -⟩ := (storeOk_of_reachable env w hw).1 d hd
  have hset : setUsername env username = d.username := by
    rw [setUsername, hu, hdtrim]
  have hvu : validateUsername env (setUsername env username) = none := by rw [hset]; exact hdv
  have hafter := (storeOk_of_reachable env _
    (Reachable.register w ⟨some username, some email, some password⟩ hw)).2
  refine ⟨?_, ?_, hset, (storeOk_of_reachable env w hw).2, hafter⟩
  · rw [register_eq_ok env w username email password hvu hve hp]
  · rw [register_eq_ok env w username email password hvu hve hp]

/-- C4 amended, at the second registration of `BOB`. -/
theorem register_accepts_duplicate_username_witness :
    (register demoEnv bobWorld
      ⟨some "BOB", some "bob2@example.com", some "An0ther!pass"⟩).res = redirectTo "/login" :=
  (register_accepts_duplicate_username demoEnv bobWorld
    (Reachable.register World.empty bobBody Reachable.empty) bobDoc (by decide)
    "BOB" "bob2@example.com" "An0ther!pass" (by decide) (by decide) (by decide)).1

/-! ## `register` followed by `login` -/

/-- C7 as stated fails, twice. `BOB`, `bob2@example.com`, `An0ther!pass` is a
valid triple whose email is not registered, `register` accepts it on the world
where `bob` is registered, and the `login` that follows with the same username
and password is answered 401 `Invalid password` without a cookie: `User.findOne`
returns the first `bob`. And with `JWT_SECRET` unset, `register` accepts `Bob`
on the empty world and the `login` that follows is answered 500 without a
cookie. -/
theorem taken_username_login_rejected :
    ((validateUsername demoEnv (setUsername demoEnv "BOB") = none ∧
        demoEnv.isEmail (setEmail demoEnv "bob2@example.com") = true ∧
        (∀ x ∈ bobWorld.users, x.email ≠ setEmail demoEnv "bob2@example.com") ∧
        isStrongPassword "An0ther!pass" registerStrength = true) ∧
      (register demoEnv bobWorld secondBobBody).res = redirectTo "/login" ∧
      (login demoEnv twoBobsWorld ⟨some "BOB", some "An0ther!pass"⟩).res =
        renderError 401 "login" "Invalid password" ∧
      (login demoEnv twoBobsWorld ⟨some "BOB", some "An0ther!pass"⟩).res.cookies = []) ∧
    ((register noSigningKeyEnv World.empty bobBody).res = redirectTo "/login" ∧
      (login noSigningKeyEnv (register noSigningKeyEnv World.empty bobBody).world
        ⟨some "Bob", some "Str0ng!pass"⟩).res.status = 500 ∧
      (login noSigningKeyEnv (register noSigningKeyEnv World.empty bobBody).world
        ⟨some "Bob", some "Str0ng!pass"⟩).res.cookies = []) := by
  decide

theorem findOne_new (env : Env) (users : List UserDoc) (username email password : String)
    (hlower : toLowerCase env (toLowerCase env username) = toLowerCase env username)
    (hfresh : ∀ x ∈ users, x.username ≠ setUsername env username) :
    User.findOne env (users ++ [User.newDoc env users username email password])
      (toLowerCase env username) = some (User.newDoc env users username email password) := by
  have hset : setUsername env (toLowerCase env username) = setUsername env username := by
    rw [setUsername, hlower, setUsername]
  unfold User.findOne
  rw [hset, List.find?_append]
  have hnone : users.find? (fun d => d.username == setUsername env username) = none := by
    rw [List.find?_eq_none]
    intro x hx
    simpa using hfresh x hx
  rw [hnone]
  simp [User.newDoc]

/-- C7, amended. Let the signing secret `JWT_SECRET` be set and non-empty, let
bcrypt verify the password against the hash it made of it, and let lower-casing
the username twice give the same as once (as `String.prototype.toLowerCase`
does). For every valid triple (username allowed and not reserved, email that
passes the schema's validation: not empty, accepted by `isEmail`, not yet
registered, strong password) and every world that holds no record with that
username as the schema stores it (lower-cased and trimmed), `register` followed
by `login` with the same username and password succeeds: `register` redirects to
`/login`, then `login` sets exactly one token cookie and redirects to
`/dashboard`, and the token has role `user` and the username and email of the
registered record (the submitted ones lower-cased, the username also trimmed). -/
theorem register_then_login (env : Env) (w : World) (username email password k : String)
    (hkey : env.JWT_SECRET = some k) (hk : k ≠ "")
    (hbcrypt : env.bcryptCompare password (env.bcryptHash password) = true)
    (hlower : toLowerCase env (toLowerCase env username) = toLowerCase env username)
    (hu : validateUsername env (setUsername env username) = none)
    (hfreshU : ∀ x ∈ w.users, x.username ≠ setUsername env username)
    (hve : validateEmail env w.users (setEmail env email) = none)
    (hp : isStrongPassword password registerStrength = true) :
    (register env w ⟨some username, some email, some password⟩).res = redirectTo "/login" ∧
    (login env (register env w ⟨some username, some email, some password⟩).world
      ⟨some username, some password⟩).res.status = 302 ∧
    (login env (register env w ⟨some username, some email, some password⟩).world
      ⟨some username, some password⟩).res.body = .redirect "/dashboard" ∧
    ∃ tok, (login env (register env w ⟨some username, some email, some password⟩).world
        ⟨some username, some password⟩).res.cookies = [tokenCookie env tok] ∧
      tok.payload.username = setUsername env username ∧
      tok.payload.email = some (setEmail env email) ∧
      tok.payload.role = "user" := by
  rw [register_eq_ok env w username email password hu hve hp]
  have h : (falsy (some username) || falsy (some password)) = false := by
    simp [falsy, username_ne_empty env hu, password_ne_empty hp]
  have ha : (((some username).getD "" == "admin" &&
      some ((some password).getD "") == env.ADMIN_PASSWORD)) = false := by
    simp [username_ne_admin env hu]
  have hf := findOne_new env w.users username email password hlower hfreshU
  have hv : (User.newDoc env w.users username email password).verifyPassword env password
      = true := hbcrypt
  rw [login_eq_user env _ ⟨some username, some password⟩ _ k h ha hf hv hkey hk]
  exact ⟨rfl, rfl, rfl, _, rfl, rfl, rfl, rfl⟩

/-- C7 amended, at a username that starts with the Kelvin sign `U+212A`, which
lower-cases to `k`: the record is stored as `kate` and the login is accepted. -/
theorem register_then_login_witness :
    (login demoEnv (register demoEnv World.empty
        ⟨some "\u212Aate", some "Kate@Example.com", some "Str0ng!pass"⟩).world
      ⟨some "\u212Aate", some "Str0ng!pass"⟩).res.body = .redirect "/dashboard" :=
  (register_then_login demoEnv World.empty "\u212Aate" "Kate@Example.com" "Str0ng!pass"
    "signing-key" rfl (by decide) (by decide) (by decide) (by decide) (by decide) (by decide)
    (by decide)).2.2.1

/-! ## The character validator of `username` -/

/-- C10. The character validator accepts `a`, tab, `b` and `a`, newline, `b`,
which the rule as documented (letters, digits, the space, `_`) rejects; such a
username passes the whole validation of the path and `register` stores it. -/
theorem usernameCharsAllowed_accepts_tab :
    usernameCharsAllowed "a\tb" = true ∧ usernameCharsAllowed "a\nb" = true ∧
    usernameCharsDocumented "a\tb" = false ∧ usernameCharsDocumented "a\nb" = false ∧
    validateUsername demoEnv (setUsername demoEnv "a\tb") = none ∧
    (register demoEnv World.empty
      ⟨some "a\tb", some "tab@example.com", some "Str0ng!pass"⟩).res = redirectTo "/login" := by
  decide

end AuthCore
